import Mathlib

/-
Verification of the timeline-mcp track/event data model and its CRUD contract.

The development shallowly embeds the operation layer of timeline-fastmcp.ts
(both the Postgres and the SQLite variant where they differ), the helper
functions sanitizeFileName / calculateGenerationTime / createMediaPath, the
zod parameter schemas, and the date conversion helpers of date-helpers.ts.

Modelling conventions:
- JavaScript strings are Lean String values (char-level helpers work on
  List Char); machine timestamps are Int milliseconds since the epoch.
- A JS Date object is represented by its UTC calendar components
  (DateComponents); Date.prototype.toISOString and Date.parse on the
  ISO 8601 extended format are implemented concretely over those components.
- The database is a pair of in-memory lists (tracks, events) inside DbState,
  with uuid generation modelled as a counter and the on-disk media folders
  modelled as a list of created paths.
- zod validation is modelled by functions returning the list of failed
  constraints; an empty list means the parameters were accepted.
- Errors: OpError.validation is the ZodError path (the "Validation error"
  response / FastMCP parameter rejection), OpError.thrown is an Error thrown
  inside execute and rethrown past the ZodError check, OpError.notFound is
  the success:false "not found" response body.
-/

namespace Timeline

/-! ### sanitizeFileName (timeline-fastmcp.ts lines 69-75 and 556-562, identical) -/

/-- The reserved character class of the first replace: [<>:"/\\|?*]. -/
def isReservedChar (c : Char) : Bool :=
  c == '<' || c == '>' || c == ':' || c == '"' || c == '/' || c == '\\' ||
  c == '|' || c == '?' || c == '*'

/-- The JavaScript regular-expression whitespace class \s (the members that
matter for file names; membership of further unicode space characters would
not change any theorem below, since none of them is a reserved character,
an underscore or a dot). -/
def isJsWhitespace (c : Char) : Bool :=
  c == ' ' || c == '\t' || c == '\n' || c == '\r' || c == '\x0b' || c == '\x0c' ||
  c == '\u00A0' || c == '\u2028' || c == '\u2029' || c == '\uFEFF'

/-- .replace(/[<>:"/\\|?*]/g, '-'): every reserved character becomes a dash. -/
def replaceReserved (l : List Char) : List Char :=
  l.map (fun c => if isReservedChar c then '-' else c)

/-- .replace(/\s+/g, '_'): every maximal run of whitespace becomes one underscore. -/
def collapseWhitespace : List Char → List Char
  | [] => []
  | [c] => if isJsWhitespace c then ['_'] else [c]
  | c :: d :: rest =>
    if isJsWhitespace c then
      if isJsWhitespace d then collapseWhitespace (d :: rest)
      else '_' :: collapseWhitespace (d :: rest)
    else c :: collapseWhitespace (d :: rest)

/-- .replace(/^\.+/, ''): strip the leading run of dots. -/
def stripLeadingDots (l : List Char) : List Char :=
  l.dropWhile (fun c => c == '.')

/-- sanitizeFileName: replace reserved characters, collapse whitespace,
strip leading dots, and truncate with .slice(0, 100). -/
def sanitizeFileName (l : List Char) : List Char :=
  (stripLeadingDots (collapseWhitespace (replaceReserved l))).take 100

/-- Whether a character list begins with a dot. -/
def startsWithDot : List Char → Bool
  | [] => false
  | c :: _ => c == '.'

/-! ### Date components and the ISO 8601 codec (models the JS Date builtins
used by date-helpers.ts) -/

/-- The UTC calendar components of a JS Date value. toISOString reads these
components and Date.parse of the ISO extended format rebuilds the same
time value from them (ECMA-262), so the string round trip of date-helpers.ts
is exactly a round trip of the components. -/
structure DateComponents where
  year : Nat
  month : Nat
  day : Nat
  hour : Nat
  minute : Nat
  second : Nat
  millisecond : Nat
deriving DecidableEq, Repr

/-- Component ranges of a date actually reachable from a valid JS Date with a
four-digit year (toISOString uses the expanded year format outside 0000-9999;
every realistic timestamp of this application is inside). -/
def validDate (d : DateComponents) : Bool :=
  d.year ≤ 9999 && 1 ≤ d.month && d.month ≤ 12 && 1 ≤ d.day && d.day ≤ 31 &&
  d.hour ≤ 23 && d.minute ≤ 59 && d.second ≤ 59 && d.millisecond ≤ 999

/-- The decimal digit character for n < 10. -/
def digitChar : Nat → Char
  | 0 => '0'
  | 1 => '1'
  | 2 => '2'
  | 3 => '3'
  | 4 => '4'
  | 5 => '5'
  | 6 => '6'
  | 7 => '7'
  | 8 => '8'
  | _ => '9'

/-- Fixed-width zero-padded decimal digits of n (width w, most significant first). -/
def padNat : Nat → Nat → List Char
  | 0, _ => []
  | w + 1, n => padNat w (n / 10) ++ [digitChar (n % 10)]

/-- Date.prototype.toISOString: the 24-character form YYYY-MM-DDTHH:MM:SS.mmmZ. -/
def toISOString (d : DateComponents) : List Char :=
  padNat 4 d.year ++ ['-'] ++ padNat 2 d.month ++ ['-'] ++ padNat 2 d.day ++ ['T'] ++
  padNat 2 d.hour ++ [':'] ++ padNat 2 d.minute ++ [':'] ++ padNat 2 d.second ++ ['.'] ++
  padNat 3 d.millisecond ++ ['Z']

def isDigitChar (c : Char) : Bool := 48 ≤ c.toNat && c.toNat ≤ 57

/-- Read exactly w decimal digits, extending the accumulator. -/
def readDigits : Nat → Nat → List Char → Option (Nat × List Char)
  | 0, acc, s => some (acc, s)
  | _ + 1, _, [] => none
  | w + 1, acc, c :: s =>
    if isDigitChar c then readDigits w (acc * 10 + (c.toNat - 48)) s else none

/-- Consume one expected character. -/
def expectChar (c : Char) : List Char → Option (List Char)
  | [] => none
  | d :: s => if d == c then some s else none

/-- Date.parse restricted to the ISO 8601 extended UTC format produced by
toISOString; out-of-range components yield NaN, modelled as none. -/
def parseISODate (s : List Char) : Option DateComponents :=
  (readDigits 4 0 s).bind fun p1 =>
  (expectChar '-' p1.2).bind fun s2 =>
  (readDigits 2 0 s2).bind fun p2 =>
  (expectChar '-' p2.2).bind fun s4 =>
  (readDigits 2 0 s4).bind fun p3 =>
  (expectChar 'T' p3.2).bind fun s6 =>
  (readDigits 2 0 s6).bind fun p4 =>
  (expectChar ':' p4.2).bind fun s8 =>
  (readDigits 2 0 s8).bind fun p5 =>
  (expectChar ':' p5.2).bind fun s10 =>
  (readDigits 2 0 s10).bind fun p6 =>
  (expectChar '.' p6.2).bind fun s12 =>
  (readDigits 3 0 s12).bind fun p7 =>
  (expectChar 'Z' p7.2).bind fun s14 =>
  match s14 with
  | [] =>
    let d : DateComponents :=
      { year := p1.1, month := p2.1, day := p3.1, hour := p4.1, minute := p5.1,
        second := p6.1, millisecond := p7.1 }
    if validDate d then some d else none
  | _ => none

/-! ### date-helpers.ts -/

/-- A JavaScript value as it can appear in an event field of date-helpers.ts:
null/undefined, a Date object, a string, a boolean, or a number. -/
inductive JsVal
  | vNull
  | vDate (d : DateComponents)
  | vStr (s : List Char)
  | vBool (b : Bool)
  | vInt (n : Int)
deriving DecidableEq, Repr

/-- JavaScript truthiness of the values above (objects are always truthy,
the empty string and 0 are falsy). -/
def jsTruthy : JsVal → Bool
  | JsVal.vNull => false
  | JsVal.vDate _ => true
  | JsVal.vStr s => !s.isEmpty
  | JsVal.vBool b => b
  | JsVal.vInt n => !(n == 0)

/-- toSQLiteDate (date-helpers.ts lines 10-25): null/undefined stay null, a
Date is serialized with toISOString, a string is reparsed and reserialized
when valid; every other value falls through to null. -/
def toSQLiteDate : JsVal → JsVal
  | JsVal.vNull => JsVal.vNull
  | JsVal.vDate d => JsVal.vStr (toISOString d)
  | JsVal.vStr s =>
    match parseISODate s with
    | some d => JsVal.vStr (toISOString d)
    | none => JsVal.vNull
  | _ => JsVal.vNull

/-- fromSQLiteDate (date-helpers.ts lines 30-36): null/undefined stay null, a
string is parsed to a Date (null when invalid). A Date input (outside the
declared string/null type) is cloned by new Date(value); the remaining
constructors are outside the declared input type and are not exercised. -/
def fromSQLiteDate : JsVal → JsVal
  | JsVal.vNull => JsVal.vNull
  | JsVal.vStr s =>
    match parseISODate s with
    | some d => JsVal.vDate d
    | none => JsVal.vNull
  | JsVal.vDate d => JsVal.vDate d
  | _ => JsVal.vNull

/-- The event fields touched by prepareEventForDb / parseEventFromDb (the
remaining fields are copied unchanged by the object spread and are omitted). -/
structure EventObj where
  scheduledTime : JsVal
  generationTime : JsVal
  postTime : JsVal
  generationStartedAt : JsVal
  approvalRequestedAt : JsVal
  createdAt : JsVal
  updatedAt : JsVal
  contentGenerated : JsVal
  approved : JsVal
  posted : JsVal
  generationStarted : JsVal
deriving DecidableEq, Repr

/-- A date field is converted only when truthy (the if (prepared.field) guards). -/
def prepDate (v : JsVal) : JsVal := if jsTruthy v then toSQLiteDate v else v

/-- A flag is converted to 0/1 only when it is a boolean (typeof check). -/
def prepBool : JsVal → JsVal
  | JsVal.vBool b => JsVal.vInt (if b then 1 else 0)
  | v => v

/-- prepareEventForDb (date-helpers.ts lines 42-69). -/
def prepareEventForDb (e : EventObj) : EventObj :=
  { e with
    scheduledTime := prepDate e.scheduledTime
    generationTime := prepDate e.generationTime
    postTime := prepDate e.postTime
    generationStartedAt := prepDate e.generationStartedAt
    approvalRequestedAt := prepDate e.approvalRequestedAt
    createdAt := prepDate e.createdAt
    updatedAt := prepDate e.updatedAt
    contentGenerated := prepBool e.contentGenerated
    approved := prepBool e.approved
    posted := prepBool e.posted
    generationStarted := prepBool e.generationStarted }

/-- The === 1 comparison of parseEventFromDb. -/
def parseBool (v : JsVal) : JsVal := JsVal.vBool (v == JsVal.vInt 1)

/-- parseEventFromDb (date-helpers.ts lines 75-96) on a non-null event. -/
def parseEventFromDb (e : EventObj) : EventObj :=
  { e with
    scheduledTime := fromSQLiteDate e.scheduledTime
    generationTime := fromSQLiteDate e.generationTime
    postTime := fromSQLiteDate e.postTime
    generationStartedAt := fromSQLiteDate e.generationStartedAt
    approvalRequestedAt := fromSQLiteDate e.approvalRequestedAt
    createdAt := fromSQLiteDate e.createdAt
    updatedAt := fromSQLiteDate e.updatedAt
    contentGenerated := parseBool e.contentGenerated
    approved := parseBool e.approved
    posted := parseBool e.posted
    generationStarted := parseBool e.generationStarted }

/-- A field holding a valid Date object (the hypothesis of the round trip). -/
def isValidDateVal : JsVal → Bool
  | JsVal.vDate d => validDate d
  | _ => false

/-- A field holding a boolean. -/
def isBoolVal : JsVal → Bool
  | JsVal.vBool _ => true
  | _ => false

/-! ### Data model of the operation layer -/

inductive TrackType
  | planned
  | automation
deriving DecidableEq, Repr

/-- A timeline_tracks row (the fields the operations read or write). -/
structure Track where
  id : Nat
  name : String
  ttype : TrackType
  order : Int
deriving DecidableEq, Repr

/-- A timeline_events row (the fields the operations read or write; timestamps
are Int milliseconds, shown faithful to the stored ISO strings by the
date-helpers round trip). -/
structure Event where
  id : Nat
  trackId : Nat
  name : String
  platform : String
  scheduledTime : Int
  generationTime : Option Int
  prompt : String
  contentGenerated : Bool
  approved : Bool
  posted : Bool
  eventType : String
  mediaPath : String
deriving DecidableEq, Repr

/-- The persistent state: the two tables, the media folders created on disk,
the uuid source, the current clock, and the current date string used for
media folder names. -/
structure DbState where
  tracks : List Track
  events : List Event
  folders : List String
  nextId : Nat
  nowMs : Int
  today : String
deriving DecidableEq, Repr

inductive OpError
  | validation (details : List String)
  | thrown (msg : String)
  | notFound (msg : String)
deriving DecidableEq, Repr

def isOk {α : Type} : Except OpError α → Bool
  | Except.ok _ => true
  | Except.error _ => false

def isValidation {α : Type} : Except OpError α → Bool
  | Except.error (OpError.validation _) => true
  | _ => false

/-! ### Helper functions and parameter schemas -/

/-- calculateGenerationTime: 30 minutes before the scheduled time
(timeline-fastmcp.ts lines 65-67 and 552-554). -/
def calculateGenerationTime (scheduledTime : Int) : Int :=
  scheduledTime - 30 * 60 * 1000

/-- createMediaPath (lines 77-84 and 564-571): tracks/{sanitized track}/
{lower-cased hyphenated sanitized event}-{date}. -/
def createMediaPath (trackName eventName : String) (today : String) : String :=
  let trackFolderName := String.mk (sanitizeFileName trackName.data)
  let eventBaseName := String.mk
    (((sanitizeFileName eventName.data).map Char.toLower).map
      (fun c => if c == '_' then '-' else c))
  "tracks/" ++ trackFolderName ++ "/" ++ (eventBaseName ++ "-" ++ today)

def platformEnum : List String := ["x", "linkedin", "instagram", "threads", "bluesky", "reddit"]

def strLenBetween (s : String) (lo hi : Nat) : Bool :=
  lo ≤ s.length && s.length ≤ hi

/-- The add_scheduled_event parameters: names and prompt as supplied;
scheduledTime is the Date.parse result of the supplied string (none when it
does not parse); platform is none when omitted (zod default x). -/
structure AddEventParams where
  trackName : String
  eventName : String
  prompt : String
  scheduledTime : Option Int
  platform : Option String
deriving DecidableEq, Repr

/-- The constraints shared by both variants of addScheduledEventParams:
lengths, a parseable scheduledTime, a known platform. -/
def addParamErrorsCommon (p : AddEventParams) : List String :=
  (if strLenBetween p.trackName 1 100 then [] else ["Track name"]) ++
  (if strLenBetween p.eventName 1 200 then [] else ["Event name"]) ++
  (if strLenBetween p.prompt 1 5000 then [] else ["Prompt"]) ++
  (match p.scheduledTime with
   | some _ => []
   | none => ["Invalid ISO 8601 datetime format"]) ++
  (match p.platform with
   | none => []
   | some pl => if platformEnum.contains pl then [] else ["platform"])

/-- addScheduledEventParams of the SQLite variant (lines 574-583):
scheduledTime is only isoDateTimeSchema, with no future-time refinement. -/
def addParamErrorsSqlite (p : AddEventParams) : List String :=
  addParamErrorsCommon p

/-- addScheduledEventParams of the Postgres variant (lines 87-97): adds the
refinement that new Date(val) > new Date(), i.e. strictly in the future. -/
def addParamErrorsPg (p : AddEventParams) (nowMs : Int) : List String :=
  addParamErrorsCommon p ++
  (match p.scheduledTime with
   | some t => if nowMs < t then [] else ["Scheduled time must be in the future"]
   | none => [])

/-! ### add_scheduled_event -/

/-- The select of the maximum track order (orderBy desc, limit 1, over all tracks). -/
def maxTrackOrder (ts : List Track) : Option Int :=
  ts.foldl
    (fun acc t =>
      match acc with
      | none => some t.order
      | some m => some (max m t.order))
    none

/-- Find-or-create of the track (name, type planned): returns the track row
used, the new tracks table, and the next free id. The maxOrder || 0 of the
source agrees with getD 0, since the || only replaces undefined or 0 by 0. -/
def findOrCreateTrack (st : DbState) (trackName : String) : Track × List Track × Nat :=
  match st.tracks.find? (fun t => t.name == trackName && t.ttype == TrackType.planned) with
  | some t => (t, st.tracks, st.nextId)
  | none =>
    let newOrder := (maxTrackOrder st.tracks).getD 0 + 1
    let t : Track :=
      { id := st.nextId, name := trackName, ttype := TrackType.planned, order := newOrder }
    (t, st.tracks ++ [t], st.nextId + 1)

/-- The success payload of add_scheduled_event. -/
structure AddEventOk where
  id : Nat
  trackId : Nat
  name : String
  scheduledTime : Int
  generationTime : Option Int
  mediaPath : String
  platform : String
deriving DecidableEq, Repr

/-- timeline_add_scheduled_event, SQLite variant (lines 587-722): validate,
find-or-create the track, create the media folder on disk, insert the event
with generationTime = scheduledTime - 30min and all flags false. -/
def addScheduledEvent (st : DbState) (p : AddEventParams) :
    Except OpError AddEventOk × DbState :=
  match addParamErrorsSqlite p with
  | [] =>
    match p.scheduledTime with
    | none => (Except.error (OpError.validation ["Invalid ISO 8601 datetime format"]), st)
    | some schedMs =>
      let fc := findOrCreateTrack st p.trackName
      let track := fc.1
      let tracks1 := fc.2.1
      let eventId := fc.2.2
      let mediaPath := createMediaPath p.trackName p.eventName st.today
      let folders1 := st.folders ++ [mediaPath]
      let genMs := calculateGenerationTime schedMs
      let platform := p.platform.getD "x"
      let ev : Event :=
        { id := eventId, trackId := track.id, name := p.eventName, platform := platform,
          scheduledTime := schedMs, generationTime := some genMs, prompt := p.prompt,
          contentGenerated := false, approved := false, posted := false,
          eventType := "scheduled", mediaPath := mediaPath }
      (Except.ok
        { id := eventId, trackId := track.id, name := p.eventName,
          scheduledTime := schedMs, generationTime := some genMs,
          mediaPath := mediaPath, platform := platform },
       { st with
         tracks := tracks1
         events := st.events ++ [ev]
         folders := folders1
         nextId := eventId + 1 })
  | errs => (Except.error (OpError.validation errs), st)

/-- timeline_add_scheduled_event, Postgres variant (lines 101-194): the
parameter schema rejects a non-future scheduledTime, and no folder is
created on disk. -/
def addScheduledEventPg (st : DbState) (p : AddEventParams) :
    Except OpError AddEventOk × DbState :=
  match addParamErrorsPg p st.nowMs with
  | [] =>
    match p.scheduledTime with
    | none => (Except.error (OpError.validation ["Invalid ISO 8601 datetime format"]), st)
    | some schedMs =>
      let fc := findOrCreateTrack st p.trackName
      let track := fc.1
      let tracks1 := fc.2.1
      let eventId := fc.2.2
      let mediaPath := createMediaPath p.trackName p.eventName st.today
      let genMs := calculateGenerationTime schedMs
      let platform := p.platform.getD "x"
      let ev : Event :=
        { id := eventId, trackId := track.id, name := p.eventName, platform := platform,
          scheduledTime := schedMs, generationTime := some genMs, prompt := p.prompt,
          contentGenerated := false, approved := false, posted := false,
          eventType := "scheduled", mediaPath := mediaPath }
      (Except.ok
        { id := eventId, trackId := track.id, name := p.eventName,
          scheduledTime := schedMs, generationTime := some genMs,
          mediaPath := mediaPath, platform := platform },
       { st with
         tracks := tracks1
         events := st.events ++ [ev]
         nextId := eventId + 1 })
  | errs => (Except.error (OpError.validation errs), st)

/-! ### update_scheduled_event -/

/-- The updates object: each slot optional; scheduledTime is some (some t)
when supplied and parseable, some none when supplied but unparseable. -/
structure UpdatePatch where
  name : Option String
  prompt : Option String
  scheduledTime : Option (Option Int)
  approved : Option Bool
  platform : Option String
deriving DecidableEq, Repr

/-- The zod parameters schema of update_scheduled_event: per-field length and
format constraints plus the refine requiring at least one update field. -/
def updateParamErrors (u : UpdatePatch) : List String :=
  (match u.name with
   | none => []
   | some s => if strLenBetween s 1 200 then [] else ["name"]) ++
  (match u.prompt with
   | none => []
   | some s => if strLenBetween s 1 5000 then [] else ["prompt"]) ++
  (match u.scheduledTime with
   | none => []
   | some (some _) => []
   | some none => ["Invalid ISO 8601 datetime format"]) ++
  (match u.platform with
   | none => []
   | some pl => if platformEnum.contains pl then [] else ["platform"]) ++
  (if u.name == none && u.prompt == none && u.scheduledTime == none &&
      u.approved == none && u.platform == none
   then ["At least one update field must be provided"] else [])

/-- The field assignments of the execute body, in source order: name, prompt
(resetting contentGenerated), scheduledTime (recomputing generationTime),
approved, platform. -/
def applyPatch (u : UpdatePatch) (newSched : Option Int) (e : Event) : Event :=
  let e1 := match u.name with
    | some n => { e with name := n }
    | none => e
  let e2 := match u.prompt with
    | some pr => { e1 with prompt := pr, contentGenerated := false }
    | none => e1
  let e3 := match newSched with
    | some t => { e2 with scheduledTime := t,
                          generationTime := some (calculateGenerationTime t) }
    | none => e2
  let e4 := match u.approved with
    | some a => { e3 with approved := a }
    | none => e3
  match u.platform with
  | some pl => { e4 with platform := pl }
  | none => e4

/-- The success payload of update_scheduled_event. -/
structure UpdateOk where
  id : Nat
  name : String
  scheduledTime : Int
  approved : Bool
  platform : String
deriving DecidableEq, Repr

/-- The UPDATE ... WHERE id = eventId followed by the re-select and the
not-found check of the source. -/
def updateRows (st : DbState) (eventId : Nat) (u : UpdatePatch) (newSched : Option Int) :
    Except OpError UpdateOk × DbState :=
  let events1 := st.events.map
    (fun e => if e.id == eventId then applyPatch u newSched e else e)
  let st1 := { st with events := events1 }
  match events1.find? (fun e => e.id == eventId) with
  | none => (Except.error (OpError.notFound "Event not found"), st1)
  | some upd =>
    (Except.ok
      { id := upd.id, name := upd.name, scheduledTime := upd.scheduledTime,
        approved := upd.approved, platform := upd.platform },
     st1)

/-- timeline_update_scheduled_event (lines 312-382 and 985-1059, identical
control flow): zod validation, then the in-execute future check which throws
a plain Error (rethrown past the ZodError branch), then the row update. -/
def updateScheduledEvent (st : DbState) (eventId : Nat) (u : UpdatePatch) :
    Except OpError UpdateOk × DbState :=
  match updateParamErrors u with
  | [] =>
    match u.scheduledTime with
    | some (some t) =>
      if t ≤ st.nowMs then
        (Except.error (OpError.thrown "Scheduled time must be in the future"), st)
      else updateRows st eventId u (some t)
    | some none =>
      (Except.error (OpError.validation ["Invalid ISO 8601 datetime format"]), st)
    | none => updateRows st eventId u none
  | errs => (Except.error (OpError.validation errs), st)

/-! ### remove_scheduled_event and remove_track -/

structure RemoveEventOk where
  success : Bool
  message : String
deriving DecidableEq, Repr

/-- timeline_remove_scheduled_event (lines 385-401 and 1062-1078): an
unconditional delete followed by an unconditional success response. -/
def removeScheduledEvent (st : DbState) (eventId : Nat) : RemoveEventOk × DbState :=
  ({ success := true,
     message := "Event " ++ toString eventId ++ " removed successfully" },
   { st with events := st.events.filter (fun e => !(e.id == eventId)) })

structure RemoveTrackOk where
  message : String
  deletedEvents : Nat
  trackType : TrackType
deriving DecidableEq, Repr

/-- timeline_remove_track (lines 404-441 and 1081-1118): not-found check,
count of the owned events, delete of the track with the cascading delete of
its events (onDelete cascade in both schemas). -/
def removeTrack (st : DbState) (trackId : Nat) : Except OpError RemoveTrackOk × DbState :=
  match st.tracks.find? (fun t => t.id == trackId) with
  | none =>
    (Except.error (OpError.notFound ("Track " ++ toString trackId ++ " not found")), st)
  | some tr =>
    let eventsInTrack := st.events.filter (fun e => e.trackId == trackId)
    (Except.ok
      { message := "Track \"" ++ tr.name ++ "\" removed successfully",
        deletedEvents := eventsInTrack.length,
        trackType := tr.ttype },
     { st with
       tracks := st.tracks.filter (fun t => !(t.id == trackId))
       events := st.events.filter (fun e => !(e.trackId == trackId)) })

/-! ### list_scheduled_events -/

structure ListParams where
  trackId : Option Nat
  status : String
  platform : Option String
  startDate : Option Int
  endDate : Option Int
  limit : Nat
  offset : Nat
deriving DecidableEq, Repr

def statusEnum : List String := ["all", "pending", "generated", "posted"]

/-- The zod parameters schema of list_scheduled_events (limit 1..100, status
and platform enumerations; offset nonnegative by its Nat type). -/
def listParamErrors (p : ListParams) : List String :=
  (if 1 ≤ p.limit && p.limit ≤ 100 then [] else ["limit"]) ++
  (if statusEnum.contains p.status then [] else ["status"]) ++
  (match p.platform with
   | none => []
   | some pl => if platformEnum.contains pl then [] else ["platform"])

def eventLe (a b : Event × Track) : Prop :=
  a.1.scheduledTime ≤ b.1.scheduledTime

instance : DecidableRel eventLe := fun a b => Int.decLe a.1.scheduledTime b.1.scheduledTime

instance : IsTotal (Event × Track) eventLe :=
  ⟨fun a b => Int.le_total a.1.scheduledTime b.1.scheduledTime⟩

instance : IsTrans (Event × Track) eventLe :=
  ⟨fun _ _ _ h1 h2 => Int.le_trans h1 h2⟩

/-- The SQL phase of list_scheduled_events: equality filters, the inner join
to the owning track, ORDER BY scheduledTime ASC, then LIMIT/OFFSET. The sort
is modelled by insertionSort (SQL guarantees only sortedness). -/
def sqlRows (st : DbState) (p : ListParams) : List (Event × Track) :=
  let base := st.events.filter (fun e =>
    e.eventType == "scheduled" &&
    (match p.trackId with
     | some tid => e.trackId == tid
     | none => true) &&
    (match p.platform with
     | some pl => e.platform == pl
     | none => true))
  let joined := base.filterMap (fun e =>
    (st.tracks.find? (fun t => t.id == e.trackId)).map (fun t => (e, t)))
  let sorted := List.insertionSort eventLe joined
  (sorted.drop p.offset).take p.limit

/-- The in-memory filter applied after the SQL phase: the status filter and
the inclusive date-range bounds. -/
def statusDatePass (p : ListParams) (e : Event) : Bool :=
  (if p.status == "all" then true
   else if p.status == "posted" then e.posted
   else if p.status == "generated" then e.contentGenerated && !e.posted
   else if p.status == "pending" then !e.contentGenerated
   else true) &&
  (match p.startDate with
   | some s => decide (s ≤ e.scheduledTime)
   | none => true) &&
  (match p.endDate with
   | some en => decide (e.scheduledTime ≤ en)
   | none => true)

/-- The derived status: posted, else generated, else pending. -/
def eventStatus (e : Event) : String :=
  if e.posted then "posted" else if e.contentGenerated then "generated" else "pending"

structure EventOut where
  id : Nat
  trackId : Nat
  trackName : String
  name : String
  prompt : String
  platform : String
  scheduledTime : Int
  generationTime : Option Int
  status : String
deriving DecidableEq, Repr

structure ListOk where
  events : List EventOut
  total : Nat
  limit : Nat
  offset : Nat
deriving DecidableEq, Repr

/-- timeline_list_scheduled_events (lines 234-309 and 899-982, identical
control flow): the SQL phase with LIMIT/OFFSET, then the in-memory filter,
with pagination.total = filtered.length. -/
def listScheduledEvents (st : DbState) (p : ListParams) : Except OpError ListOk :=
  match listParamErrors p with
  | [] =>
    let page := sqlRows st p
    let filtered := page.filter (fun et => statusDatePass p et.1)
    Except.ok
      { events := filtered.map (fun et =>
          { id := et.1.id, trackId := et.1.trackId, trackName := et.2.name,
            name := et.1.name, prompt := et.1.prompt, platform := et.1.platform,
            scheduledTime := et.1.scheduledTime, generationTime := et.1.generationTime,
            status := eventStatus et.1 }),
        total := filtered.length, limit := p.limit, offset := p.offset }
  | errs => Except.error (OpError.validation errs)

/-- Modelled from the spec sentence of C3 for comparison: the count of ALL
events matching the eventType/trackId/platform/status/date filters,
ignoring pagination. -/
def specMatchingCount (st : DbState) (p : ListParams) : Nat :=
  (st.events.filter (fun e =>
    e.eventType == "scheduled" &&
    (match p.trackId with
     | some tid => e.trackId == tid
     | none => true) &&
    (match p.platform with
     | some pl => e.platform == pl
     | none => true) &&
    statusDatePass p e)).length

/-- The total of a successful list response. -/
def listTotal : Except OpError ListOk → Option Nat
  | Except.ok r => some r.total
  | Except.error _ => none

/-! ### Concrete fixtures used by witnesses and counterexamples -/

def stC1w : DbState :=
  { tracks := [], events := [], folders := [], nextId := 0, nowMs := 0, today := "2024-01-01" }

def pC1w : AddEventParams :=
  { trackName := "Launch", eventName := "Teaser", prompt := "write",
    scheduledTime := some 7200000, platform := none }

def eC1w : Event :=
  { id := 3, trackId := 1, name := "A", platform := "x", scheduledTime := 4000,
    generationTime := some 100, prompt := "p", contentGenerated := false,
    approved := false, posted := false, eventType := "scheduled", mediaPath := "m" }

def stC1w2 : DbState :=
  { tracks := [{ id := 1, name := "T", ttype := TrackType.planned, order := 1 }],
    events := [eC1w], folders := [], nextId := 5, nowMs := 1000, today := "2024-01-01" }

def uC1w : UpdatePatch :=
  { name := none, prompt := none, scheduledTime := some (some 9000000),
    approved := none, platform := none }

def eC1wUpd : Event :=
  { eC1w with scheduledTime := 9000000, generationTime := some (9000000 - 30 * 60 * 1000) }

def stC2x : DbState :=
  { tracks := [], events := [], folders := [], nextId := 0,
    nowMs := 1700000000000, today := "2023-11-14" }

def pC2x : AddEventParams :=
  { trackName := "Launch", eventName := "Teaser", prompt := "write a post",
    scheduledTime := some 1000, platform := none }

def stC2w : DbState :=
  { tracks := [], events := [], folders := [], nextId := 0,
    nowMs := 500000, today := "2024-06-01" }

def pC2w : AddEventParams :=
  { trackName := "News", eventName := "Post", prompt := "draft",
    scheduledTime := some 400000, platform := none }

def stC4w : DbState :=
  { tracks := [], events := [], folders := [], nextId := 0, nowMs := 0, today := "2024-01-01" }

def pC4a : AddEventParams :=
  { trackName := "Series", eventName := "E1", prompt := "p1",
    scheduledTime := some 3600000, platform := none }

def pC4b : AddEventParams :=
  { pC4a with eventName := "E2", scheduledTime := some 7200000 }

def trC5w : Track := { id := 1, name := "Campaign", ttype := TrackType.planned, order := 1 }

def eC5a : Event :=
  { id := 2, trackId := 1, name := "A", platform := "x", scheduledTime := 1000,
    generationTime := some 0, prompt := "p", contentGenerated := false,
    approved := false, posted := false, eventType := "scheduled", mediaPath := "m" }

def eC5b : Event := { eC5a with id := 3, scheduledTime := 2000 }

def eC5c : Event := { eC5a with id := 4, trackId := 9, scheduledTime := 3000 }

def stC5w : DbState :=
  { tracks := [trC5w], events := [eC5a, eC5b, eC5c], folders := [], nextId := 5,
    nowMs := 0, today := "d" }

def stC5n : DbState :=
  { tracks := [], events := [], folders := [], nextId := 0, nowMs := 0, today := "d" }

def eC6x : Event :=
  { id := 7, trackId := 1, name := "A", platform := "x", scheduledTime := 5000000,
    generationTime := some 3200000, prompt := "p", contentGenerated := false,
    approved := false, posted := false, eventType := "scheduled", mediaPath := "m" }

def stC6x : DbState :=
  { tracks := [{ id := 1, name := "T", ttype := TrackType.planned, order := 1 }],
    events := [eC6x], folders := [], nextId := 9, nowMs := 4000000, today := "2024-01-01" }

def uC6x : UpdatePatch :=
  { name := none, prompt := none, scheduledTime := some (some 1000),
    approved := none, platform := none }

def uC6w : UpdatePatch :=
  { name := none, prompt := none, scheduledTime := some (some 3999999),
    approved := none, platform := none }

def uC6w2 : UpdatePatch :=
  { name := none, prompt := none, scheduledTime := some (some 8000000),
    approved := none, platform := none }

def eC6xUpd : Event :=
  { eC6x with scheduledTime := 8000000, generationTime := some (8000000 - 30 * 60 * 1000) }

def emptyPatch : UpdatePatch :=
  { name := none, prompt := none, scheduledTime := none, approved := none, platform := none }

def promptOnlyPatch (pr : String) : UpdatePatch := { emptyPatch with prompt := some pr }

def eC7x : Event :=
  { id := 9, trackId := 1, name := "B", platform := "x", scheduledTime := 6000,
    generationTime := some 100, prompt := "old prompt", contentGenerated := true,
    approved := false, posted := false, eventType := "scheduled", mediaPath := "m" }

def stC7x : DbState :=
  { tracks := [{ id := 1, name := "T", ttype := TrackType.planned, order := 1 }],
    events := [eC7x], folders := [], nextId := 12, nowMs := 100, today := "2024-01-01" }

def eC7xUpd : Event := { eC7x with prompt := "new prompt", contentGenerated := false }

def trC3x : Track := { id := 1, name := "T", ttype := TrackType.planned, order := 1 }

def eC3a : Event :=
  { id := 2, trackId := 1, name := "A", platform := "x", scheduledTime := 1000,
    generationTime := some 0, prompt := "p", contentGenerated := false,
    approved := false, posted := false, eventType := "scheduled", mediaPath := "m" }

def eC3b : Event := { eC3a with id := 3, scheduledTime := 2000, posted := true }

def stC3x : DbState :=
  { tracks := [trC3x], events := [eC3a, eC3b], folders := [], nextId := 4,
    nowMs := 0, today := "d" }

def pC3x : ListParams :=
  { trackId := none, status := "posted", platform := none, startDate := none,
    endDate := none, limit := 1, offset := 0 }

def stC3w : DbState :=
  { tracks := [trC3x], events := [eC3a], folders := [], nextId := 3,
    nowMs := 0, today := "d" }

def pC3w : ListParams :=
  { trackId := none, status := "all", platform := none, startDate := none,
    endDate := none, limit := 50, offset := 0 }

def eoC3w : EventOut :=
  { id := 2, trackId := 1, trackName := "T", name := "A", prompt := "p",
    platform := "x", scheduledTime := 1000, generationTime := some 0,
    status := "pending" }

def rC3w : ListOk := { events := [eoC3w], total := 1, limit := 50, offset := 0 }

/-! ## Theorems -/

/-! ### Lemmas about sanitizeFileName -/

theorem mem_replaceReserved (c : Char) (l : List Char) (h : c ∈ replaceReserved l) :
    isReservedChar c = false := by
  simp only [replaceReserved, List.mem_map] at h
  obtain ⟨a, _, ha⟩ := h
  by_cases hr : isReservedChar a
  · rw [if_pos hr] at ha
    rw [← ha]
    decide
  · rw [if_neg hr] at ha
    rw [← ha]
    exact Bool.of_not_eq_true hr

theorem mem_collapseWhitespace (c : Char) :
    ∀ l : List Char, c ∈ collapseWhitespace l → c ∈ l ∨ c = '_' := by
  intro l
  induction l with
  | nil => simp [collapseWhitespace]
  | cons a rest ih =>
    cases rest with
    | nil =>
      simp only [collapseWhitespace]
      split
      · intro h
        right
        simpa using h
      · intro h
        left
        simpa using h
    | cons b rest2 =>
      simp only [collapseWhitespace]
      split
      · split
        · intro h
          rcases ih h with h1 | h1
          · exact Or.inl (List.mem_cons_of_mem a h1)
          · exact Or.inr h1
        · intro h
          rcases List.mem_cons.mp h with h1 | h1
          · exact Or.inr h1
          · rcases ih h1 with h2 | h2
            · exact Or.inl (List.mem_cons_of_mem a h2)
            · exact Or.inr h2
      · intro h
        rcases List.mem_cons.mp h with h1 | h1
        · exact Or.inl (h1 ▸ List.mem_cons_self a (b :: rest2))
        · rcases ih h1 with h2 | h2
          · exact Or.inl (List.mem_cons_of_mem a h2)
          · exact Or.inr h2

theorem startsWithDot_stripLeadingDots (l : List Char) :
    startsWithDot (stripLeadingDots l) = false := by
  induction l with
  | nil => rfl
  | cons a rest ih =>
    by_cases h : a == '.'
    · simpa [stripLeadingDots, List.dropWhile_cons, h] using ih
    · simp [stripLeadingDots, List.dropWhile_cons, h, startsWithDot]

theorem startsWithDot_take100 (l : List Char) :
    startsWithDot (l.take 100) = startsWithDot l := by
  cases l with
  | nil => rfl
  | cons a rest => rfl

/-- Claim C9: for every input, sanitizeFileName yields a string with none of
the reserved characters, no leading dot, and length at most 100. -/
theorem c9_sanitize_folder_safe (l : List Char) :
    (sanitizeFileName l).all (fun c => !isReservedChar c) = true ∧
    startsWithDot (sanitizeFileName l) = false ∧
    (sanitizeFileName l).length ≤ 100 := by
  refine ⟨?_, ?_, ?_⟩
  · rw [List.all_eq_true]
    intro c hc
    have h1 : c ∈ stripLeadingDots (collapseWhitespace (replaceReserved l)) :=
      (List.take_sublist _ _).subset hc
    have h2 : c ∈ collapseWhitespace (replaceReserved l) :=
      (List.dropWhile_sublist _).subset h1
    rcases mem_collapseWhitespace c _ h2 with h3 | h3
    · simp [mem_replaceReserved c l h3]
    · subst h3
      decide
  · rw [sanitizeFileName, startsWithDot_take100]
    exact startsWithDot_stripLeadingDots _
  · rw [sanitizeFileName]
    exact List.length_take_le 100 _

/-! ### Lemmas about the ISO 8601 codec (C10) -/

theorem padNat_cons (w : Nat) :
    ∀ n : Nat, n < 10 ^ (w + 1) →
      padNat (w + 1) n = digitChar (n / 10 ^ w) :: padNat w (n % 10 ^ w) := by
  induction w with
  | zero =>
    intro n h
    have h10 : n < 10 := by simpa using h
    simp [padNat, Nat.mod_eq_of_lt h10]
  | succ w ih =>
    intro n h
    have hdiv : n / 10 < 10 ^ (w + 1) := by
      apply Nat.div_lt_of_lt_mul
      calc n < 10 ^ (w + 2) := h
        _ = 10 * 10 ^ (w + 1) := by ring
    have e1 : n / 10 / 10 ^ w = n / 10 ^ (w + 1) := by
      rw [Nat.div_div_eq_div_mul]
      congr 1
      ring
    have e2 : n / 10 % 10 ^ w = n % 10 ^ (w + 1) / 10 := by
      rw [← Nat.mod_mul_right_div_self]
      congr 2
      ring
    have e3 : n % 10 ^ (w + 1) % 10 = n % 10 := by
      apply Nat.mod_mod_of_dvd
      exact dvd_pow_self 10 (Nat.succ_ne_zero w)
    calc padNat (w + 2) n = padNat (w + 1) (n / 10) ++ [digitChar (n % 10)] := rfl
      _ = digitChar (n / 10 / 10 ^ w) :: (padNat w (n / 10 % 10 ^ w) ++ [digitChar (n % 10)]) := by
          rw [ih (n / 10) hdiv]
          rfl
      _ = digitChar (n / 10 ^ (w + 1)) ::
            (padNat w (n % 10 ^ (w + 1) / 10) ++ [digitChar (n % 10 ^ (w + 1) % 10)]) := by
          rw [e1, e2, e3]
      _ = digitChar (n / 10 ^ (w + 1)) :: padNat (w + 1) (n % 10 ^ (w + 1)) := rfl

theorem isDigitChar_digitChar (k : Nat) (h : k < 10) : isDigitChar (digitChar k) = true := by
  interval_cases k <;> decide

theorem toNat_digitChar (k : Nat) (h : k < 10) : (digitChar k).toNat - 48 = k := by
  interval_cases k <;> decide

theorem readDigits_padNat (w : Nat) :
    ∀ (acc n : Nat) (rest : List Char), n < 10 ^ w →
      readDigits w acc (padNat w n ++ rest) = some (acc * 10 ^ w + n, rest) := by
  induction w with
  | zero =>
    intro acc n rest h
    have h0 : n = 0 := by omega
    simp [padNat, readDigits, h0]
  | succ w ih =>
    intro acc n rest h
    have hq : n / 10 ^ w < 10 := by
      apply Nat.div_lt_of_lt_mul
      calc n < 10 ^ (w + 1) := h
        _ = 10 ^ w * 10 := by ring
    have hr : n % 10 ^ w < 10 ^ w := Nat.mod_lt n (Nat.pos_pow_of_pos w (by norm_num))
    rw [padNat_cons w n h]
    show readDigits (w + 1) acc (digitChar (n / 10 ^ w) :: (padNat w (n % 10 ^ w) ++ rest)) = _
    rw [readDigits, if_pos (isDigitChar_digitChar _ hq), toNat_digitChar _ hq,
      ih (acc * 10 + n / 10 ^ w) (n % 10 ^ w) rest hr]
    congr 2
    have hdm : n / 10 ^ w * 10 ^ w + n % 10 ^ w = n := Nat.div_add_mod' n (10 ^ w)
    calc (acc * 10 + n / 10 ^ w) * 10 ^ w + n % 10 ^ w
        = acc * (10 ^ w * 10) + (n / 10 ^ w * 10 ^ w + n % 10 ^ w) := by ring
      _ = acc * 10 ^ (w + 1) + n := by rw [hdm]; ring

theorem readDigits_zero_padNat (w n : Nat) (rest : List Char) (h : n < 10 ^ w) :
    readDigits w 0 (padNat w n ++ rest) = some (n, rest) := by
  simpa using readDigits_padNat w 0 n rest h

theorem expectChar_cons (c : Char) (s : List Char) : expectChar c (c :: s) = some s := by
  simp [expectChar]

attribute [irreducible] digitChar padNat readDigits expectChar

theorem toISOString_assoc (d : DateComponents) :
    toISOString d =
      padNat 4 d.year ++ ('-' :: (padNat 2 d.month ++ ('-' :: (padNat 2 d.day ++ ('T' ::
        (padNat 2 d.hour ++ (':' :: (padNat 2 d.minute ++ (':' :: (padNat 2 d.second ++ ('.' ::
          (padNat 3 d.millisecond ++ ['Z'])))))))))))) := by
  simp only [toISOString, List.append_assoc, List.cons_append, List.nil_append]

theorem parseISODate_toISOString (d : DateComponents) (h : validDate d = true) :
    parseISODate (toISOString d) = some d := by
  obtain ⟨y, mo, da, hh, mi, se, ms⟩ := d
  have hb := h
  simp only [validDate, Bool.and_eq_true, decide_eq_true_eq] at hb
  obtain ⟨⟨⟨⟨⟨⟨⟨⟨hy, hmo1⟩, hmo2⟩, hda1⟩, hda2⟩, hhh⟩, hmi⟩, hse⟩, hms⟩ := hb
  have h4y : y < 10 ^ 4 := by norm_num; omega
  have h2mo : mo < 10 ^ 2 := by norm_num; omega
  have h2da : da < 10 ^ 2 := by norm_num; omega
  have h2hh : hh < 10 ^ 2 := by norm_num; omega
  have h2mi : mi < 10 ^ 2 := by norm_num; omega
  have h2se : se < 10 ^ 2 := by norm_num; omega
  have h3ms : ms < 10 ^ 3 := by norm_num; omega
  rw [toISOString_assoc, parseISODate]
  rw [readDigits_zero_padNat 4 y _ h4y]
  rw [Option.some_bind]
  rw [expectChar_cons]
  rw [Option.some_bind]
  rw [readDigits_zero_padNat 2 mo _ h2mo]
  rw [Option.some_bind]
  rw [expectChar_cons]
  rw [Option.some_bind]
  rw [readDigits_zero_padNat 2 da _ h2da]
  rw [Option.some_bind]
  rw [expectChar_cons]
  rw [Option.some_bind]
  rw [readDigits_zero_padNat 2 hh _ h2hh]
  rw [Option.some_bind]
  rw [expectChar_cons]
  rw [Option.some_bind]
  rw [readDigits_zero_padNat 2 mi _ h2mi]
  rw [Option.some_bind]
  rw [expectChar_cons]
  rw [Option.some_bind]
  rw [readDigits_zero_padNat 2 se _ h2se]
  rw [Option.some_bind]
  rw [expectChar_cons]
  rw [Option.some_bind]
  rw [readDigits_zero_padNat 3 ms _ h3ms]
  rw [Option.some_bind]
  rw [expectChar_cons]
  rw [Option.some_bind]
  simp [h]

theorem fromSQLiteDate_toSQLiteDate (d : DateComponents) (h : validDate d = true) :
    fromSQLiteDate (toSQLiteDate (JsVal.vDate d)) = JsVal.vDate d := by
  simp [toSQLiteDate, fromSQLiteDate, parseISODate_toISOString d h]

theorem roundtrip_date_field (v : JsVal) (h : isValidDateVal v = true) :
    fromSQLiteDate (prepDate v) = v := by
  cases v with
  | vDate d =>
    have hd : validDate d = true := by simpa [isValidDateVal] using h
    simp [prepDate, jsTruthy, fromSQLiteDate_toSQLiteDate d hd]
  | vNull => simp [isValidDateVal] at h
  | vStr s => simp [isValidDateVal] at h
  | vBool b => simp [isValidDateVal] at h
  | vInt n => simp [isValidDateVal] at h

theorem roundtrip_bool_field (v : JsVal) (h : isBoolVal v = true) :
    parseBool (prepBool v) = v := by
  cases v with
  | vBool b => cases b <;> decide
  | vNull => simp [isBoolVal] at h
  | vStr s => simp [isBoolVal] at h
  | vDate d => simp [isBoolVal] at h
  | vInt n => simp [isBoolVal] at h

/-- Claim C10: an event whose date fields are valid Date objects and whose
flags are booleans round-trips exactly through prepareEventForDb and
parseEventFromDb (same flags, same timestamps to millisecond precision). -/
theorem c10_event_db_roundtrip (e : EventObj)
    (h1 : isValidDateVal e.scheduledTime = true)
    (h2 : isValidDateVal e.generationTime = true)
    (h3 : isValidDateVal e.postTime = true)
    (h4 : isValidDateVal e.generationStartedAt = true)
    (h5 : isValidDateVal e.approvalRequestedAt = true)
    (h6 : isValidDateVal e.createdAt = true)
    (h7 : isValidDateVal e.updatedAt = true)
    (h8 : isBoolVal e.contentGenerated = true)
    (h9 : isBoolVal e.approved = true)
    (h10 : isBoolVal e.posted = true)
    (h11 : isBoolVal e.generationStarted = true) :
    parseEventFromDb (prepareEventForDb e) = e := by
  obtain ⟨f1, f2, f3, f4, f5, f6, f7, f8, f9, f10, f11⟩ := e
  simp only [prepareEventForDb, parseEventFromDb, EventObj.mk.injEq] at h1 h2 h3 h4 h5 h6 h7 h8 h9 h10 h11 ⊢
  exact ⟨roundtrip_date_field f1 h1, roundtrip_date_field f2 h2, roundtrip_date_field f3 h3,
    roundtrip_date_field f4 h4, roundtrip_date_field f5 h5, roundtrip_date_field f6 h6,
    roundtrip_date_field f7 h7, roundtrip_bool_field f8 h8, roundtrip_bool_field f9 h9,
    roundtrip_bool_field f10 h10, roundtrip_bool_field f11 h11⟩

/-- Witness for C10 at a concrete event. -/
theorem c10_event_db_roundtrip_witness :
    parseEventFromDb (prepareEventForDb
      { scheduledTime := JsVal.vDate ⟨2024, 3, 7, 1, 2, 3, 4⟩,
        generationTime := JsVal.vDate ⟨2025, 12, 31, 23, 59, 59, 999⟩,
        postTime := JsVal.vDate ⟨2000, 1, 1, 0, 0, 0, 0⟩,
        generationStartedAt := JsVal.vDate ⟨1999, 6, 1, 0, 0, 0, 1⟩,
        approvalRequestedAt := JsVal.vDate ⟨2024, 2, 29, 12, 0, 0, 0⟩,
        createdAt := JsVal.vDate ⟨2024, 3, 7, 1, 2, 3, 4⟩,
        updatedAt := JsVal.vDate ⟨2024, 3, 7, 1, 2, 3, 5⟩,
        contentGenerated := JsVal.vBool true,
        approved := JsVal.vBool false,
        posted := JsVal.vBool true,
        generationStarted := JsVal.vBool false }) =
      { scheduledTime := JsVal.vDate ⟨2024, 3, 7, 1, 2, 3, 4⟩,
        generationTime := JsVal.vDate ⟨2025, 12, 31, 23, 59, 59, 999⟩,
        postTime := JsVal.vDate ⟨2000, 1, 1, 0, 0, 0, 0⟩,
        generationStartedAt := JsVal.vDate ⟨1999, 6, 1, 0, 0, 0, 1⟩,
        approvalRequestedAt := JsVal.vDate ⟨2024, 2, 29, 12, 0, 0, 0⟩,
        createdAt := JsVal.vDate ⟨2024, 3, 7, 1, 2, 3, 4⟩,
        updatedAt := JsVal.vDate ⟨2024, 3, 7, 1, 2, 3, 5⟩,
        contentGenerated := JsVal.vBool true,
        approved := JsVal.vBool false,
        posted := JsVal.vBool true,
        generationStarted := JsVal.vBool false } :=
  c10_event_db_roundtrip _ (by decide) (by decide) (by decide) (by decide) (by decide)
    (by decide) (by decide) (by decide) (by decide) (by decide) (by decide)

/-! ### Lemmas about update_scheduled_event -/

theorem applyPatch_id (u : UpdatePatch) (ns : Option Int) (e : Event) :
    (applyPatch u ns e).id = e.id := by
  unfold applyPatch
  cases u.name <;> cases u.prompt <;> cases ns <;> cases u.approved <;> cases u.platform <;> rfl

theorem applyPatch_generationTime (u : UpdatePatch) (t : Int) (e : Event) :
    (applyPatch u (some t) e).generationTime = some (calculateGenerationTime t) := by
  unfold applyPatch
  cases u.name <;> cases u.prompt <;> cases u.approved <;> cases u.platform <;> rfl

theorem applyPatch_contentGenerated (u : UpdatePatch) (ns : Option Int) (e : Event)
    (pr : String) (h : u.prompt = some pr) :
    (applyPatch u ns e).contentGenerated = false := by
  unfold applyPatch
  rw [h]
  cases u.name <;> cases ns <;> cases u.approved <;> cases u.platform <;> rfl

theorem updateRows_events (st : DbState) (i : Nat) (u : UpdatePatch) (ns : Option Int) :
    (updateRows st i u ns).2.events =
      st.events.map (fun e => if e.id == i then applyPatch u ns e else e) := by
  simp only [updateRows]
  split <;> rfl

theorem updateRows_generationTime (st : DbState) (i : Nat) (u : UpdatePatch) (t : Int) :
    ∀ e' ∈ (updateRows st i u (some t)).2.events, e'.id = i →
      e'.generationTime = some (calculateGenerationTime t) := by
  intro e' he' hid
  rw [updateRows_events] at he'
  rcases List.mem_map.mp he' with ⟨e, _, heq⟩
  split at heq
  · rw [← heq]
    exact applyPatch_generationTime u t e
  · rw [← heq] at hid
    simp [hid] at *

theorem updateRows_contentGenerated (st : DbState) (i : Nat) (u : UpdatePatch)
    (ns : Option Int) (pr : String) (h : u.prompt = some pr) :
    ∀ e' ∈ (updateRows st i u ns).2.events, e'.id = i →
      e'.contentGenerated = false := by
  intro e' he' hid
  rw [updateRows_events] at he'
  rcases List.mem_map.mp he' with ⟨e, _, heq⟩
  split at heq
  · rw [← heq]
    exact applyPatch_contentGenerated u ns e pr h
  · rw [← heq] at hid
    simp [hid] at *

theorem map_patch_preserves_id (u : UpdatePatch) (ns : Option Int) (i : Nat) (e : Event) :
    (if e.id == i then applyPatch u ns e else e).id = e.id := by
  split
  · exact applyPatch_id u ns e
  · rfl

theorem find?_map_patch (l : List Event) (i : Nat) (u : UpdatePatch) (ns : Option Int) :
    (l.map (fun e => if e.id == i then applyPatch u ns e else e)).find?
        (fun e => e.id == i) =
      (l.find? (fun e => e.id == i)).map
        (fun e => if e.id == i then applyPatch u ns e else e) := by
  rw [List.find?_map]
  have hfun : ((fun e : Event => e.id == i) ∘
      fun e => if e.id == i then applyPatch u ns e else e) =
      (fun e : Event => e.id == i) := by
    funext e
    simp only [Function.comp_apply, map_patch_preserves_id]
  rw [hfun]

theorem updateRows_found (st : DbState) (i : Nat) (u : UpdatePatch) (ns : Option Int)
    (e : Event) (h : st.events.find? (fun ev => ev.id == i) = some e) :
    isOk (updateRows st i u ns).1 = true := by
  simp only [updateRows]
  rw [find?_map_patch, h]
  rfl

theorem updateScheduledEvent_past (st : DbState) (i : Nat) (u : UpdatePatch) (t : Int)
    (hv : updateParamErrors u = []) (hs : u.scheduledTime = some (some t))
    (hp : t ≤ st.nowMs) :
    updateScheduledEvent st i u =
      (Except.error (OpError.thrown "Scheduled time must be in the future"), st) := by
  simp only [updateScheduledEvent, hv, hs]
  rw [if_pos hp]

theorem updateScheduledEvent_future (st : DbState) (i : Nat) (u : UpdatePatch) (t : Int)
    (hv : updateParamErrors u = []) (hs : u.scheduledTime = some (some t))
    (hf : st.nowMs < t) :
    updateScheduledEvent st i u = updateRows st i u (some t) := by
  simp only [updateScheduledEvent, hv, hs]
  rw [if_neg (not_le.mpr hf)]

theorem updateScheduledEvent_noSched (st : DbState) (i : Nat) (u : UpdatePatch)
    (hv : updateParamErrors u = []) (hs : u.scheduledTime = none) :
    updateScheduledEvent st i u = updateRows st i u none := by
  simp only [updateScheduledEvent, hv, hs]

/-! ### Lemmas about add_scheduled_event -/

theorem findOrCreateTrack_found (st : DbState) (n : String) (tr : Track)
    (h : st.tracks.find? (fun t => t.name == n && t.ttype == TrackType.planned) = some tr) :
    findOrCreateTrack st n = (tr, st.tracks, st.nextId) := by
  simp only [findOrCreateTrack, h]

theorem findOrCreateTrack_new (st : DbState) (n : String)
    (h : st.tracks.find? (fun t => t.name == n && t.ttype == TrackType.planned) = none) :
    findOrCreateTrack st n =
      ({ id := st.nextId, name := n, ttype := TrackType.planned,
         order := (maxTrackOrder st.tracks).getD 0 + 1 },
       st.tracks ++
         [{ id := st.nextId, name := n, ttype := TrackType.planned,
            order := (maxTrackOrder st.tracks).getD 0 + 1 }],
       st.nextId + 1) := by
  simp only [findOrCreateTrack, h]

theorem addScheduledEvent_valid (st : DbState) (p : AddEventParams) (t : Int)
    (hv : addParamErrorsSqlite p = []) (hs : p.scheduledTime = some t) :
    addScheduledEvent st p =
      (Except.ok
        { id := (findOrCreateTrack st p.trackName).2.2,
          trackId := (findOrCreateTrack st p.trackName).1.id,
          name := p.eventName, scheduledTime := t,
          generationTime := some (calculateGenerationTime t),
          mediaPath := createMediaPath p.trackName p.eventName st.today,
          platform := p.platform.getD "x" },
       { st with
         tracks := (findOrCreateTrack st p.trackName).2.1
         events := st.events ++
           [{ id := (findOrCreateTrack st p.trackName).2.2,
              trackId := (findOrCreateTrack st p.trackName).1.id,
              name := p.eventName, platform := p.platform.getD "x",
              scheduledTime := t,
              generationTime := some (calculateGenerationTime t),
              prompt := p.prompt, contentGenerated := false, approved := false,
              posted := false, eventType := "scheduled",
              mediaPath := createMediaPath p.trackName p.eventName st.today }]
         folders := st.folders ++ [createMediaPath p.trackName p.eventName st.today]
         nextId := (findOrCreateTrack st p.trackName).2.2 + 1 }) := by
  simp only [addScheduledEvent, hv, hs]

theorem addScheduledEvent_tracks (st : DbState) (p : AddEventParams) (t : Int)
    (hv : addParamErrorsSqlite p = []) (hs : p.scheduledTime = some t) :
    (addScheduledEvent st p).2.tracks = (findOrCreateTrack st p.trackName).2.1 := by
  rw [addScheduledEvent_valid st p t hv hs]

theorem addScheduledEvent_isOk (st : DbState) (p : AddEventParams) (t : Int)
    (hv : addParamErrorsSqlite p = []) (hs : p.scheduledTime = some t) :
    ∃ a : AddEventOk, (addScheduledEvent st p).1 = Except.ok a ∧
      a.trackId = (findOrCreateTrack st p.trackName).1.id := by
  rw [addScheduledEvent_valid st p t hv hs]
  exact ⟨_, rfl, rfl⟩

/-! ### Claim C1 -/

/-- Claim C1: immediately after a valid add_scheduled_event and after any
update_scheduled_event changing scheduledTime to a future time, the
generationTime of the event equals scheduledTime minus 30 minutes. -/
theorem c1_generation_time_offset :
    (∀ (st : DbState) (p : AddEventParams) (t : Int),
        addParamErrorsSqlite p = [] → p.scheduledTime = some t →
        ((addScheduledEvent st p).1.map (fun a => a.generationTime) =
            Except.ok (some (t - 30 * 60 * 1000)) ∧
          ((addScheduledEvent st p).2.events.getLast?).map
              (fun e => (e.scheduledTime, e.generationTime)) =
            some (t, some (t - 30 * 60 * 1000)))) ∧
    (∀ (st : DbState) (i : Nat) (u : UpdatePatch) (t : Int),
        updateParamErrors u = [] → u.scheduledTime = some (some t) → st.nowMs < t →
        ∀ e' ∈ (updateScheduledEvent st i u).2.events,
          e'.id = i → e'.generationTime = some (t - 30 * 60 * 1000)) := by
  constructor
  · intro st p t hv hs
    rw [addScheduledEvent_valid st p t hv hs]
    constructor
    · rfl
    · simp [List.getLast?_concat, calculateGenerationTime]
  · intro st i u t hv hs hf e' he' hid
    rw [updateScheduledEvent_future st i u t hv hs hf] at he'
    simpa [calculateGenerationTime] using updateRows_generationTime st i u t e' he' hid

/-- Witness for C1 at concrete inputs. -/
theorem c1_generation_time_offset_witness :
    ((addScheduledEvent stC1w pC1w).1.map (fun a => a.generationTime) =
        Except.ok (some (7200000 - 30 * 60 * 1000)) ∧
      ((addScheduledEvent stC1w pC1w).2.events.getLast?).map
          (fun e => (e.scheduledTime, e.generationTime)) =
        some (7200000, some (7200000 - 30 * 60 * 1000))) ∧
    eC1wUpd.generationTime = some (9000000 - 30 * 60 * 1000) :=
  ⟨c1_generation_time_offset.1 stC1w pC1w 7200000 rfl rfl,
   c1_generation_time_offset.2 stC1w2 3 uC1w 9000000 rfl rfl (by decide) eC1wUpd
     (by decide) rfl⟩

/-! ### Claim C2 -/

/-- Claim C2 (amended): only the Postgres parameter schema rejects a
non-future scheduledTime (with a ValidationError and no state change); the
SQLite variant accepts it and creates the event row and the media folder. -/
theorem c2_amended_past_time_validation (st : DbState) (p : AddEventParams) (t : Int)
    (hs : p.scheduledTime = some t) (hpast : t ≤ st.nowMs) :
    (isValidation (addScheduledEventPg st p).1 = true ∧ (addScheduledEventPg st p).2 = st) ∧
    (addParamErrorsSqlite p = [] →
      isOk (addScheduledEvent st p).1 = true ∧
      (addScheduledEvent st p).2.events.length = st.events.length + 1 ∧
      (addScheduledEvent st p).2.folders.length = st.folders.length + 1) := by
  constructor
  · have hne : addParamErrorsPg p st.nowMs =
        addParamErrorsCommon p ++ ["Scheduled time must be in the future"] := by
      simp only [addParamErrorsPg, hs]
      rw [if_neg (not_lt.mpr hpast)]
    cases hE : addParamErrorsPg p st.nowMs with
    | nil =>
      rw [hne] at hE
      rcases List.append_eq_nil.mp hE with ⟨_, h2⟩
      simp at h2
    | cons a as =>
      constructor
      · simp only [addScheduledEventPg, hE, isValidation]
      · simp only [addScheduledEventPg, hE]
  · intro hv
    rw [addScheduledEvent_valid st p t hv hs]
    refine ⟨rfl, ?_, ?_⟩ <;> simp

/-- Counterexample for C2 as stated: the SQLite variant accepts a
scheduledTime in the past and creates a track, an event and a folder. -/
theorem c2_counterexample :
    isOk (addScheduledEvent stC2x pC2x).1 = true ∧
    (addScheduledEvent stC2x pC2x).2.tracks.length = 1 ∧
    (addScheduledEvent stC2x pC2x).2.events.length = 1 ∧
    (addScheduledEvent stC2x pC2x).2.folders.length = 1 ∧
    (1000 : Int) ≤ stC2x.nowMs :=
  ⟨rfl, rfl, rfl, rfl, by decide⟩

/-- Witness for the amended C2 at concrete inputs. -/
theorem c2_amended_witness :
    (isValidation (addScheduledEventPg stC2w pC2w).1 = true ∧
      (addScheduledEventPg stC2w pC2w).2 = stC2w) ∧
    (addParamErrorsSqlite pC2w = [] →
      isOk (addScheduledEvent stC2w pC2w).1 = true ∧
      (addScheduledEvent stC2w pC2w).2.events.length = stC2w.events.length + 1 ∧
      (addScheduledEvent stC2w pC2w).2.folders.length = stC2w.folders.length + 1) :=
  c2_amended_past_time_validation stC2w pC2w 400000 rfl (by decide)

/-! ### Claim C4 -/

/-- Claim C4: two add_scheduled_event calls with the same (fresh) track name
create exactly one planned track with that name, and both created events
carry the id of that track. -/
theorem c4_find_or_create_idempotent
    (st : DbState) (p1 p2 : AddEventParams) (t1 t2 : Int)
    (hn : p2.trackName = p1.trackName)
    (hv1 : addParamErrorsSqlite p1 = []) (hv2 : addParamErrorsSqlite p2 = [])
    (hs1 : p1.scheduledTime = some t1) (hs2 : p2.scheduledTime = some t2)
    (hnew : st.tracks.find?
        (fun t => t.name == p1.trackName && t.ttype == TrackType.planned) = none) :
    ∃ (a1 a2 : AddEventOk) (tr : Track),
      (addScheduledEvent st p1).1 = Except.ok a1 ∧
      (addScheduledEvent (addScheduledEvent st p1).2 p2).1 = Except.ok a2 ∧
      (addScheduledEvent (addScheduledEvent st p1).2 p2).2.tracks.filter
          (fun t => t.name == p1.trackName && t.ttype == TrackType.planned) = [tr] ∧
      a1.trackId = tr.id ∧ a2.trackId = tr.id := by
  have hfc1 := findOrCreateTrack_new st p1.trackName hnew
  obtain ⟨a1, ha1, ha1tid⟩ := addScheduledEvent_isOk st p1 t1 hv1 hs1
  rw [hfc1] at ha1tid
  have hst1tracks : (addScheduledEvent st p1).2.tracks =
      st.tracks ++
        [{ id := st.nextId, name := p1.trackName, ttype := TrackType.planned,
           order := (maxTrackOrder st.tracks).getD 0 + 1 }] := by
    rw [addScheduledEvent_tracks st p1 t1 hv1 hs1, hfc1]
  have hfind2 : (addScheduledEvent st p1).2.tracks.find?
      (fun t => t.name == p2.trackName && t.ttype == TrackType.planned) =
      some { id := st.nextId, name := p1.trackName, ttype := TrackType.planned,
             order := (maxTrackOrder st.tracks).getD 0 + 1 } := by
    rw [hst1tracks, List.find?_append, hn, hnew]
    simp [List.find?]
  have hfc2 := findOrCreateTrack_found (addScheduledEvent st p1).2 p2.trackName _ hfind2
  obtain ⟨a2, ha2, ha2tid⟩ :=
    addScheduledEvent_isOk (addScheduledEvent st p1).2 p2 t2 hv2 hs2
  rw [hfc2] at ha2tid
  have hst2tracks : (addScheduledEvent (addScheduledEvent st p1).2 p2).2.tracks =
      (addScheduledEvent st p1).2.tracks := by
    rw [addScheduledEvent_tracks (addScheduledEvent st p1).2 p2 t2 hv2 hs2, hfc2]
  refine ⟨a1, a2,
    { id := st.nextId, name := p1.trackName, ttype := TrackType.planned,
      order := (maxTrackOrder st.tracks).getD 0 + 1 }, ha1, ha2, ?_, ha1tid, ha2tid⟩
  rw [hst2tracks, hst1tracks, List.filter_append]
  have hnil : st.tracks.filter
      (fun t => t.name == p1.trackName && t.ttype == TrackType.planned) = [] :=
    List.filter_eq_nil_iff.mpr (List.find?_eq_none.mp hnew)
  rw [hnil]
  simp [List.filter]

/-- Witness for C4 at concrete inputs. -/
theorem c4_find_or_create_idempotent_witness :
    ∃ (a1 a2 : AddEventOk) (tr : Track),
      (addScheduledEvent stC4w pC4a).1 = Except.ok a1 ∧
      (addScheduledEvent (addScheduledEvent stC4w pC4a).2 pC4b).1 = Except.ok a2 ∧
      (addScheduledEvent (addScheduledEvent stC4w pC4a).2 pC4b).2.tracks.filter
          (fun t => t.name == pC4a.trackName && t.ttype == TrackType.planned) = [tr] ∧
      a1.trackId = tr.id ∧ a2.trackId = tr.id :=
  c4_find_or_create_idempotent stC4w pC4a pC4b 3600000 7200000 rfl rfl rfl rfl rfl rfl

/-! ### Claim C5 -/

/-- Claim C5: remove_track fails with NotFound when the track id does not
exist; otherwise it deletes the track, cascades to exactly the events whose
trackId references it, and reports their count as deletedEvents. -/
theorem c5_remove_track_cascade :
    (∀ (st : DbState) (tid : Nat),
        st.tracks.find? (fun t => t.id == tid) = none →
        removeTrack st tid =
          (Except.error (OpError.notFound ("Track " ++ toString tid ++ " not found")), st)) ∧
    (∀ (st : DbState) (tid : Nat) (tr : Track),
        st.tracks.find? (fun t => t.id == tid) = some tr →
        (removeTrack st tid).1 = Except.ok
          { message := "Track \"" ++ tr.name ++ "\" removed successfully",
            deletedEvents := (st.events.filter (fun e => e.trackId == tid)).length,
            trackType := tr.ttype } ∧
        (removeTrack st tid).2.events = st.events.filter (fun e => !(e.trackId == tid)) ∧
        (removeTrack st tid).2.tracks = st.tracks.filter (fun t => !(t.id == tid))) := by
  constructor
  · intro st tid h
    simp only [removeTrack, h]
  · intro st tid tr h
    refine ⟨?_, ?_, ?_⟩ <;> simp only [removeTrack, h]

/-- Witness for C5 at concrete inputs. -/
theorem c5_remove_track_cascade_witness :
    removeTrack stC5n 99 =
      (Except.error (OpError.notFound ("Track " ++ toString 99 ++ " not found")), stC5n) ∧
    ((removeTrack stC5w 1).1 = Except.ok
        { message := "Track \"" ++ trC5w.name ++ "\" removed successfully",
          deletedEvents := (stC5w.events.filter (fun e => e.trackId == 1)).length,
          trackType := trC5w.ttype } ∧
      (removeTrack stC5w 1).2.events = stC5w.events.filter (fun e => !(e.trackId == 1)) ∧
      (removeTrack stC5w 1).2.tracks = stC5w.tracks.filter (fun t => !(t.id == 1))) :=
  ⟨c5_remove_track_cascade.1 stC5n 99 rfl, c5_remove_track_cascade.2 stC5w 1 trC5w rfl⟩

/-! ### Claim C6 -/

/-- Claim C6 (amended): an update whose new scheduledTime is not strictly in
the future fails with the thrown error message (not the ZodError-derived
ValidationError) and leaves the state unchanged; with a future time,
generationTime is recomputed from the new scheduledTime. -/
theorem c6_update_time_check :
    (∀ (st : DbState) (i : Nat) (u : UpdatePatch) (t : Int),
        updateParamErrors u = [] → u.scheduledTime = some (some t) → t ≤ st.nowMs →
        updateScheduledEvent st i u =
          (Except.error (OpError.thrown "Scheduled time must be in the future"), st)) ∧
    (∀ (st : DbState) (i : Nat) (u : UpdatePatch) (t : Int),
        updateParamErrors u = [] → u.scheduledTime = some (some t) → st.nowMs < t →
        ∀ e' ∈ (updateScheduledEvent st i u).2.events,
          e'.id = i → e'.generationTime = some (calculateGenerationTime t)) := by
  constructor
  · intro st i u t hv hs hp
    exact updateScheduledEvent_past st i u t hv hs hp
  · intro st i u t hv hs hf e' he' hid
    rw [updateScheduledEvent_future st i u t hv hs hf] at he'
    exact updateRows_generationTime st i u t e' he' hid

/-- Counterexample for C6 as stated: the past-time rejection is a thrown
plain Error, not a ValidationError. -/
theorem c6_counterexample :
    (updateScheduledEvent stC6x 7 uC6x).1 =
      Except.error (OpError.thrown "Scheduled time must be in the future") ∧
    isValidation (updateScheduledEvent stC6x 7 uC6x).1 = false :=
  ⟨rfl, rfl⟩

/-- Witness for the amended C6 at concrete inputs. -/
theorem c6_update_time_check_witness :
    updateScheduledEvent stC6x 7 uC6w =
      (Except.error (OpError.thrown "Scheduled time must be in the future"), stC6x) ∧
    eC6xUpd.generationTime = some (calculateGenerationTime 8000000) :=
  ⟨c6_update_time_check.1 stC6x 7 uC6w 3999999 rfl rfl (by decide),
   c6_update_time_check.2 stC6x 7 uC6w2 8000000 rfl rfl (by decide) eC6xUpd
     (by decide) rfl⟩

/-! ### Claim C7 -/

/-- Claim C7: an update with an empty updates object fails with a
ValidationError; an update with only a prompt succeeds (on an existing
event) and the contentGenerated flag of the event is false afterwards. -/
theorem c7_empty_and_prompt_updates :
    (∀ (st : DbState) (i : Nat),
        (updateScheduledEvent st i emptyPatch).1 =
          Except.error (OpError.validation ["At least one update field must be provided"])) ∧
    (∀ (st : DbState) (i : Nat) (pr : String) (e : Event),
        1 ≤ pr.length → pr.length ≤ 5000 →
        st.events.find? (fun ev => ev.id == i) = some e →
        isOk (updateScheduledEvent st i (promptOnlyPatch pr)).1 = true ∧
        ∀ e' ∈ (updateScheduledEvent st i (promptOnlyPatch pr)).2.events,
          e'.id = i → e'.contentGenerated = false) := by
  constructor
  · intro st i
    rfl
  · intro st i pr e h1 h2 hfind
    have hv : updateParamErrors (promptOnlyPatch pr) = [] := by
      simp [updateParamErrors, promptOnlyPatch, emptyPatch, strLenBetween, h1, h2]
    have hred := updateScheduledEvent_noSched st i (promptOnlyPatch pr) hv rfl
    constructor
    · rw [hred]
      exact updateRows_found st i (promptOnlyPatch pr) none e hfind
    · intro e' he' hid
      rw [hred] at he'
      exact updateRows_contentGenerated st i (promptOnlyPatch pr) none pr rfl e' he' hid

/-- Witness for C7 at concrete inputs. -/
theorem c7_empty_and_prompt_updates_witness :
    (updateScheduledEvent stC7x 9 emptyPatch).1 =
      Except.error (OpError.validation ["At least one update field must be provided"]) ∧
    isOk (updateScheduledEvent stC7x 9 (promptOnlyPatch "new prompt")).1 = true ∧
    eC7xUpd.contentGenerated = false :=
  ⟨c7_empty_and_prompt_updates.1 stC7x 9,
   (c7_empty_and_prompt_updates.2 stC7x 9 "new prompt" eC7x (by decide) (by decide) rfl).1,
   (c7_empty_and_prompt_updates.2 stC7x 9 "new prompt" eC7x (by decide) (by decide) rfl).2
     eC7xUpd (by decide) rfl⟩

/-! ### Claim C8 -/

/-- Claim C8: remove_scheduled_event always reports success, and afterwards
no event with the removed id remains. -/
theorem c8_remove_event_idempotent (st : DbState) (i : Nat) :
    (removeScheduledEvent st i).1.success = true ∧
    (removeScheduledEvent st i).2.events = st.events.filter (fun e => !(e.id == i)) ∧
    (removeScheduledEvent st i).2.events.find? (fun e => e.id == i) = none := by
  refine ⟨rfl, rfl, ?_⟩
  rw [show (removeScheduledEvent st i).2.events =
      st.events.filter (fun e => !(e.id == i)) from rfl]
  rw [List.find?_eq_none]
  intro x hx
  have hmem := (List.mem_filter.mp hx).2
  simp only [Bool.not_eq_true'] at hmem
  simp [hmem]

/-! ### Claim C3 -/

theorem sqlRows_pairwise (st : DbState) (p : ListParams) :
    List.Pairwise eventLe (sqlRows st p) := by
  simp only [sqlRows]
  exact List.Pairwise.sublist
    (List.Sublist.trans (List.take_sublist _ _) (List.drop_sublist _ _))
    (List.sorted_insertionSort eventLe _)

/-- Claim C3 (amended): the returned events are ordered ascending by
scheduledTime, and pagination.total equals the length of the returned
(post-filter) page. -/
theorem c3_ordering_and_total (st : DbState) (p : ListParams) (r : ListOk)
    (h : listScheduledEvents st p = Except.ok r) :
    List.Pairwise (fun a b : EventOut => a.scheduledTime ≤ b.scheduledTime) r.events ∧
    r.total = r.events.length := by
  unfold listScheduledEvents at h
  cases hE : listParamErrors p with
  | cons a as =>
    rw [hE] at h
    exact Except.noConfusion h
  | nil =>
    rw [hE] at h
    injection h with h2
    subst h2
    constructor
    · rw [List.pairwise_map]
      exact List.Pairwise.sublist (List.filter_sublist _) (sqlRows_pairwise st p)
    · exact (List.length_map _ _).symm

/-- Counterexample for C3 as stated: with limit 1, the SQL page is cut
before the in-memory status filter runs, so pagination.total is 0 while one
event matches the filters. -/
theorem c3_counterexample :
    listTotal (listScheduledEvents stC3x pC3x) = some 0 ∧
    specMatchingCount stC3x pC3x = 1 :=
  ⟨rfl, rfl⟩

/-- Witness for the amended C3 at concrete inputs. -/
theorem c3_ordering_and_total_witness :
    List.Pairwise (fun a b : EventOut => a.scheduledTime ≤ b.scheduledTime) rC3w.events ∧
    rC3w.total = rC3w.events.length :=
  c3_ordering_and_total stC3w pC3w rC3w rfl

end Timeline
